import Mathlib

/-!
Verification of the command registration, precondition-validation,
confirmation, and exit-code dispatch pipeline of the aq command-line tool
(source file cli/run.go). Pure fragments of the Go code are embedded as
Lean functions; the interactive prompt and the external action handlers
appear as explicit parameters. String literals from the source that
contain a backtick or a single quote are written with the escapes
\x60 (backtick) and \x27 (single quote).
-/

/-- ValidationOutcome of a Before hook: either nil (Accepted) or a
cli.NewExitError carrying a message and an exit code (Rejected). -/
inductive Outcome where
  | accepted : Outcome
  | rejected (message : String) (exitCode : Nat) : Outcome
deriving DecidableEq, Repr

/-- ExecutionResult of an external action handler (cmd.Query, cmd.Ls, ...):
Success or Failure carrying an error message. The handlers live outside
this pipeline; their result is opaque here. -/
inductive ExecResult where
  | success : ExecResult
  | failure (e : String) : ExecResult
deriving DecidableEq, Repr

/-- Result of the interactive yes and no read performed by the external
Bowery prompt library: either an answer, or a read error. -/
inductive PromptResult where
  | answered (b : Bool) : PromptResult
  | failed : PromptResult
deriving DecidableEq, Repr

/-- Modelled from the spec: prompt.Ask is an external library call whose
Go result is the pair (answer, err) and run.go reads only the answer
component (answer, _ = prompt.Ask(...)). Per the spec section 4.4 an
error result reads as declined: the library returns false together with
any error, so the ignored error leaves the answer false. -/
def askAnswer : PromptResult → Bool
  | .answered b => b
  | .failed => false

/-- Embeds Go strings.Split(s, ".") specialised to the one-character
separator used in run.go: splits s around every occurrence of the dot. -/
def splitDotAux : List Char → List Char → List String
  | [], acc => [String.mk acc.reverse]
  | c :: cs, acc =>
    if c = '.' then String.mk acc.reverse :: splitDotAux cs []
    else splitDotAux cs (c :: acc)

def splitDot (s : String) : List String := splitDotAux s.toList []

/-- Embeds Go strings.HasPrefix(s, p): true when p heads s. -/
def goStartsWith (s p : String) : Bool := p.toList.isPrefixOf s.toList

/-- Embeds c.Args().Get(n) of the cli library: the n-th positional
argument, or the empty string when fewer are present. First() is Get(0). -/
def argGet (args : List String) (n : Nat) : String := args.getD n ""

/-- FlagSpec: one cli flag declaration (name, usage, static default value,
optional environment-variable fallback). -/
structure FlagSpec where
  name : String
  usage : String := ""
  value : String := ""
  envVar : Option String := none

/-- BucketFlag from run.go: no static default (Go zero value ""), with the
AQ_DEFAULT_BUCKET environment fallback. -/
def BucketFlag : FlagSpec :=
  { name := "bucket, b"
    usage := "S3 bucket where the query result is stored."
    envVar := some "AQ_DEFAULT_BUCKET" }

/-- The source_format flag of the load command, with its static default. -/
def SourceFormatFlag : FlagSpec :=
  { name := "source_format, s"
    value := "NEWLINE_DELIMITED_JSON"
    usage := "Specify source file data format. Now aq support only NEWLINE_DELIMITED_JSON." }

/-- Flag-value resolution precedence of the cli library: explicit
command-line value, else environment variable, else the static default. -/
def resolveFlag : Option String → Option String → String → String
  | some v, _, _ => v
  | none, some v, _ => v
  | none, none, d => d

/-- ParsedInvocation: the resolved flag values relevant to the Before
hooks, the outcome of the prompt read (consulted only by rm without
force), and the positional arguments. c.NArg() is args.length and
c.Args().Get(n) is argGet args n. -/
structure Invocation where
  bucket : String
  sourceFormat : String := "NEWLINE_DELIMITED_JSON"
  force : Bool := false
  promptR : PromptResult := .answered false
  args : List String := []

/-- Before hook of the query command. -/
def queryBefore (c : Invocation) : Outcome :=
  if c.args.length = 0 then .rejected "QUERY must be specified." 1
  else if c.bucket = "" then .rejected "bucket must be specified." 1
  else .accepted

/-- Before hook of the ls command. -/
def lsBefore (c : Invocation) : Outcome :=
  if c.bucket = "" then .rejected "bucket must be specified." 1
  else .accepted

/-- Before hook of the head command. -/
def headBefore (c : Invocation) : Outcome :=
  if c.bucket = "" then .rejected "bucket must be specified." 1
  else if c.args.length = 0 then .rejected "DATABASE and TABLE must be specified." 1
  else if (splitDot (argGet c.args 0)).length ≠ 2 then
    .rejected "[DATABASE].[TABLE] must contain \x60.\x60." 1
  else .accepted

/-- Before hook of the mk command. -/
def mkBefore (c : Invocation) : Outcome :=
  if c.bucket = "" then .rejected "bucket must be specified." 1
  else if c.args.length = 0 then .rejected "DATABASE must be specified." 1
  else if (splitDot (argGet c.args 0)).length ≥ 2 then
    .rejected "If you want to create table, use \x60load\x60 subcommand." 1
  else .accepted

/-- Before hook of the rm command. Besides the Outcome it reports whether
the interactive prompt was consulted (true exactly on the non-force path
that reaches the confirmation). -/
def rmBefore (c : Invocation) : Outcome × Bool :=
  if c.bucket = "" then (.rejected "bucket must be specified." 1, false)
  else if c.args.length = 0 then (.rejected "NAME must be specified." 1, false)
  else
    let ap : Bool × Bool :=
      if c.force then (true, false)
      else (askAnswer c.promptR, true)
    if ap.1 = false then (.rejected "Canceled." 1, ap.2)
    else (.accepted, ap.2)

/-- Before hook of the load command. -/
def loadBefore (c : Invocation) : Outcome :=
  if c.bucket = "" then .rejected "bucket must be specified." 1
  else if goStartsWith (argGet c.args 1) "s3://" = false then
    .rejected "\x60SOURCE\x60 must start with \x27s3://\x27" 1
  else if c.sourceFormat ≠ "NEWLINE_DELIMITED_JSON" then
    .rejected "Now aq support only NEWLINE_DELIMITED_JSON." 1
  else .accepted

/-- One entry of the Commands table: name, usage, ArgsUsage and the Before
hook (uniformly returning the prompted marker, false for every command
except rm, which never prompts). The Action field is the external handler
and is kept out of the table; dispatch carries its result separately. -/
structure Command where
  name : String
  usage : String
  argsUsage : String
  before : Invocation → Outcome × Bool

/-- The Commands table of run.go, in declaration order. -/
def Commands : List Command :=
  [ { name := "query", usage := "Run query", argsUsage := "QUERY",
      before := fun c => (queryBefore c, false) },
    { name := "ls", usage := "Show databases or tables in specified database",
      argsUsage := "[DATABASE]", before := fun c => (lsBefore c, false) },
    { name := "head", usage := "Show records in specified table",
      argsUsage := "DATABASE.TABLE", before := fun c => (headBefore c, false) },
    { name := "mk", usage := "Create database", argsUsage := "DATABASE",
      before := fun c => (mkBefore c, false) },
    { name := "rm", usage := "Drop database or table", argsUsage := "NAME",
      before := rmBefore },
    { name := "load", usage := "Create table and load data",
      argsUsage := "DATABASE.TABLE SOURCE SCHEMA",
      before := fun c => (loadBefore c, false) } ]

/-- The subcommand names collected by the fallback app.Action loop. -/
def subcommandNames : List String := Commands.map (fun c => c.name)

/-- The line the fallback app.Action prints to the error stream:
fmt.Fprintf(os.Stderr, a format, "Subcommands", strings.Join(subcmds, ", ")). -/
def fallbackLine : String :=
  "Subcommands" ++ ": " ++ String.intercalate ", " subcommandNames ++ "\n"

/-- Modelled from the spec: the urfave cli dispatch loop is library code
outside this repository. Per the spec sections 4.2 and 4.5 it matches the
first token against the registered command names and falls back to
app.Action, written in run.go, when no token is present or none matches. -/
def lookupCommand (tok : String) : List Command → Option Command
  | [] => none
  | c :: cs => if tok = c.name then some c else lookupCommand tok cs

/-- Outcome of one process run before exit-code mapping: the fallback
listing (no Before hook and no handler runs), a rejection by a Before
hook, or a dispatch to the matched command's external handler. -/
inductive RunOutcome where
  | fallback (printed : String) : RunOutcome
  | rejectedRun (message : String) (exitCode : Nat) : RunOutcome
  | dispatched (name : String) : RunOutcome
deriving DecidableEq, Repr

/-- Modelled from the spec: the whole dispatch of one run. Empty argument
list or an unmatched first token produces the fallback listing without
running any Before hook; a matched command runs its Before hook and, only
on Accepted, reaches its external handler. -/
def dispatch (argv : List String) (inv : Invocation) : RunOutcome :=
  match argv with
  | [] => .fallback fallbackLine
  | tok :: _ =>
    match lookupCommand tok Commands with
    | none => .fallback fallbackLine
    | some cmd =>
      match (cmd.before inv).1 with
      | .rejected m k => .rejectedRun m k
      | .accepted => .dispatched tok

/-- The msg function of run.go: a nil error maps to exit code 0 with
nothing printed; a non-nil error maps to exit code 1 and prints the error
prefixed with the program name (os.Args at index 0) to the error stream. -/
def msg (progName : String) (err : Option String) : Nat × Option String :=
  match err with
  | none => (0, none)
  | some e => (1, some (progName ++ ": " ++ e ++ "\n"))

/-- The error carried from an ExecutionResult into msg: Success is a nil
error, Failure carries its message. -/
def execErr : ExecResult → Option String
  | .success => none
  | .failure e => some e

/-- Exit code of one full run: fallback exits 0 (app.Run returns nil), a
rejection exits with the ExitError code, a dispatched handler exits by
the msg mapping of its result. -/
def runExitCode (o : RunOutcome) (handler : ExecResult) (progName : String) : Nat :=
  match o with
  | .fallback _ => (msg progName none).1
  | .rejectedRun _ k => k
  | .dispatched _ => (msg progName (execErr handler)).1

/-! Helper lemmas. -/

theorem resolveFlag_unset (d : String) : resolveFlag none none d = d := rfl

theorem args_length_ne_zero {l : List String} (h : l ≠ []) : ¬ (l.length = 0) := by
  simp [List.length_eq_zero, h]

/-- C1: for every command in the table (query, ls, head, mk, rm, load),
invoking it with the bucket flag not passed on the command line and the
bucket environment variable unset (so the bucket value resolves to the
flag's empty default) is Rejected with exit code 1 and the message
"bucket must be specified."; for query the invocation carries its QUERY
argument, whose presence is checked first. rm reports no prompt. -/
theorem c1_bucket_required (inv : Invocation)
    (hb : inv.bucket = resolveFlag none none BucketFlag.value)
    (ha : inv.args ≠ []) :
    queryBefore inv = .rejected "bucket must be specified." 1 ∧
    lsBefore inv = .rejected "bucket must be specified." 1 ∧
    headBefore inv = .rejected "bucket must be specified." 1 ∧
    mkBefore inv = .rejected "bucket must be specified." 1 ∧
    rmBefore inv = (.rejected "bucket must be specified." 1, false) ∧
    loadBefore inv = .rejected "bucket must be specified." 1 := by
  have hb' : inv.bucket = "" := hb
  refine ⟨?_, ?_, ?_, ?_, ?_, ?_⟩ <;>
    simp [queryBefore, lsBefore, headBefore, mkBefore, rmBefore, loadBefore,
      hb', args_length_ne_zero ha]

theorem c1_bucket_required_witness :
    queryBefore { bucket := "", args := ["SELECT 1"] } = .rejected "bucket must be specified." 1 ∧
    lsBefore { bucket := "", args := ["SELECT 1"] } = .rejected "bucket must be specified." 1 ∧
    headBefore { bucket := "", args := ["SELECT 1"] } = .rejected "bucket must be specified." 1 ∧
    mkBefore { bucket := "", args := ["SELECT 1"] } = .rejected "bucket must be specified." 1 ∧
    rmBefore { bucket := "", args := ["SELECT 1"] } = (.rejected "bucket must be specified." 1, false) ∧
    loadBefore { bucket := "", args := ["SELECT 1"] } = .rejected "bucket must be specified." 1 :=
  c1_bucket_required { bucket := "", args := ["SELECT 1"] } rfl (by simp)

/-- C2: rule-evaluation order. The first conjunct shows the query hook
checks the positional argument before the bucket (an invocation missing
both is rejected with the missing-QUERY message, whatever the bucket).
The next five show ls, head, mk, rm and load check the bucket first (u is
arbitrary apart from its empty bucket, so any later rule may also be
failing). The rest pin the second rule of head, mk and rm (argument count
before shape or prompt; rm does not prompt there) and of load (SOURCE
check before the format check, whatever the format). -/
theorem c2_rule_order (u v w : Invocation)
    (hub : u.bucket = "")
    (hvb : v.bucket ≠ "") (hva : v.args = [])
    (hwb : w.bucket ≠ "")
    (hws : goStartsWith (argGet w.args 1) "s3://" = false) :
    (∀ q : Invocation, q.args = [] →
      queryBefore q = .rejected "QUERY must be specified." 1) ∧
    lsBefore u = .rejected "bucket must be specified." 1 ∧
    headBefore u = .rejected "bucket must be specified." 1 ∧
    mkBefore u = .rejected "bucket must be specified." 1 ∧
    rmBefore u = (.rejected "bucket must be specified." 1, false) ∧
    loadBefore u = .rejected "bucket must be specified." 1 ∧
    headBefore v = .rejected "DATABASE and TABLE must be specified." 1 ∧
    mkBefore v = .rejected "DATABASE must be specified." 1 ∧
    rmBefore v = (.rejected "NAME must be specified." 1, false) ∧
    loadBefore w = .rejected "\x60SOURCE\x60 must start with \x27s3://\x27" 1 := by
  refine ⟨fun q hq => ?_, ?_, ?_, ?_, ?_, ?_, ?_, ?_, ?_, ?_⟩
  · simp [queryBefore, hq]
  · simp [lsBefore, hub]
  · simp [headBefore, hub]
  · simp [mkBefore, hub]
  · simp [rmBefore, hub]
  · simp [loadBefore, hub]
  · simp [headBefore, hvb, hva]
  · simp [mkBefore, hvb, hva]
  · simp [rmBefore, hvb, hva]
  · simp [loadBefore, hwb, hws]

theorem c2_rule_order_witness :
    (∀ q : Invocation, q.args = [] →
      queryBefore q = .rejected "QUERY must be specified." 1) ∧
    lsBefore { bucket := "", args := ["x.y"] } = .rejected "bucket must be specified." 1 ∧
    headBefore { bucket := "", args := ["x.y"] } = .rejected "bucket must be specified." 1 ∧
    mkBefore { bucket := "", args := ["x.y"] } = .rejected "bucket must be specified." 1 ∧
    rmBefore { bucket := "", args := ["x.y"] } = (.rejected "bucket must be specified." 1, false) ∧
    loadBefore { bucket := "", args := ["x.y"] } = .rejected "bucket must be specified." 1 ∧
    headBefore { bucket := "B" } = .rejected "DATABASE and TABLE must be specified." 1 ∧
    mkBefore { bucket := "B" } = .rejected "DATABASE must be specified." 1 ∧
    rmBefore { bucket := "B" } = (.rejected "NAME must be specified." 1, false) ∧
    loadBefore { bucket := "B", args := ["db.t", "foo"] } =
      .rejected "\x60SOURCE\x60 must start with \x27s3://\x27" 1 :=
  c2_rule_order { bucket := "", args := ["x.y"] } { bucket := "B" }
    { bucket := "B", args := ["db.t", "foo"] } rfl (by decide) rfl (by decide) (by decide)

/-- C3: for rm with the bucket flag set and at least one positional
argument, the force flag short-circuits the confirmation: validation
passes with no prompt consulted, whatever the prompt would have produced.
Without force, a false answer or a read error from the prompt is Rejected
with exit code 1 and the exact message "Canceled.", the prompt having
been consulted once. -/
theorem c3_rm_confirmation (inv : Invocation)
    (hb : inv.bucket ≠ "") (ha : inv.args ≠ []) :
    (inv.force = true → rmBefore inv = (.accepted, false)) ∧
    (inv.force = false →
      inv.promptR = .answered false ∨ inv.promptR = .failed →
      rmBefore inv = (.rejected "Canceled." 1, true)) := by
  constructor
  · intro hf
    simp [rmBefore, hb, args_length_ne_zero ha, hf]
  · intro hf hp
    rcases hp with hp | hp <;>
      simp [rmBefore, hb, args_length_ne_zero ha, hf, hp, askAnswer]

theorem c3_rm_confirmation_witness :
    (({ bucket := "B", args := ["db"], force := true,
        promptR := .failed } : Invocation).force = true →
      rmBefore { bucket := "B", args := ["db"], force := true, promptR := .failed } =
        (.accepted, false)) ∧
    (({ bucket := "B", args := ["db"], force := true,
        promptR := .failed } : Invocation).force = false →
      ({ bucket := "B", args := ["db"], force := true,
         promptR := .failed } : Invocation).promptR = .answered false ∨
      ({ bucket := "B", args := ["db"], force := true,
         promptR := .failed } : Invocation).promptR = .failed →
      rmBefore { bucket := "B", args := ["db"], force := true, promptR := .failed } =
        (.rejected "Canceled." 1, true)) :=
  c3_rm_confirmation { bucket := "B", args := ["db"], force := true, promptR := .failed }
    (by decide) (by simp)

/-- C4: for head with the bucket flag set and an argument present, a
first argument that splits on the dot into anything but exactly 2 parts
(such as foo, or foo.bar.baz) is Rejected with exit code 1 and the
message naming the dot requirement; a first argument foo.bar passes
validation whatever follows it. -/
theorem c4_head_dot (inv : Invocation)
    (hb : inv.bucket ≠ "") (ha : inv.args ≠ [])
    (h2 : (splitDot (argGet inv.args 0)).length ≠ 2) :
    headBefore inv = .rejected "[DATABASE].[TABLE] must contain \x60.\x60." 1 ∧
    (∀ (b : String) (rest : List String), b ≠ "" →
      headBefore { bucket := b, args := "foo.bar" :: rest } = .accepted) := by
  constructor
  · simp [headBefore, hb, args_length_ne_zero ha, h2]
  · intro b rest hb'
    simp [headBefore, hb', argGet]
    decide

theorem c4_head_dot_witness :
    (headBefore { bucket := "B", args := ["foo"] } =
        .rejected "[DATABASE].[TABLE] must contain \x60.\x60." 1 ∧
      ∀ (b : String) (rest : List String), b ≠ "" →
        headBefore { bucket := b, args := "foo.bar" :: rest } = .accepted) ∧
    headBefore { bucket := "B", args := ["foo.bar.baz"] } =
      .rejected "[DATABASE].[TABLE] must contain \x60.\x60." 1 :=
  ⟨c4_head_dot { bucket := "B", args := ["foo"] } (by decide) (by simp) (by decide),
    (c4_head_dot { bucket := "B", args := ["foo.bar.baz"] } (by decide) (by simp)
      (by decide)).1⟩

/-- C5: for mk with the bucket flag set and at least one positional
argument, a first argument that splits on the dot into 2 or more parts
(such as db.table) is Rejected with exit code 1 and the message directing
the user to the load subcommand; with fewer than 2 parts (such as db)
validation passes. -/
theorem c5_mk_qualified (inv : Invocation)
    (hb : inv.bucket ≠ "") (ha : inv.args ≠ []) :
    ((splitDot (argGet inv.args 0)).length ≥ 2 →
      mkBefore inv = .rejected "If you want to create table, use \x60load\x60 subcommand." 1) ∧
    ((splitDot (argGet inv.args 0)).length < 2 → mkBefore inv = .accepted) := by
  constructor
  · intro h2
    simp [mkBefore, hb, args_length_ne_zero ha, h2]
  · intro h2
    simp [mkBefore, hb, args_length_ne_zero ha]
    omega

theorem c5_mk_qualified_witness :
    (((splitDot (argGet ["db.table"] 0)).length ≥ 2 →
        mkBefore { bucket := "B", args := ["db.table"] } =
          .rejected "If you want to create table, use \x60load\x60 subcommand." 1) ∧
      ((splitDot (argGet ["db.table"] 0)).length < 2 →
        mkBefore { bucket := "B", args := ["db.table"] } = .accepted)) ∧
    (((splitDot (argGet ["db"] 0)).length ≥ 2 →
        mkBefore { bucket := "B", args := ["db"] } =
          .rejected "If you want to create table, use \x60load\x60 subcommand." 1) ∧
      ((splitDot (argGet ["db"] 0)).length < 2 →
        mkBefore { bucket := "B", args := ["db"] } = .accepted)) :=
  ⟨c5_mk_qualified { bucket := "B", args := ["db.table"] } (by decide) (by simp),
    c5_mk_qualified { bucket := "B", args := ["db"] } (by decide) (by simp)⟩

theorem argGet_eq_empty {l : List String} {n : Nat} (h : l.length ≤ n) :
    argGet l n = "" := List.getD_eq_default l "" h

/-- C6: for load with the bucket flag set, a second positional argument
not starting with s3:// is Rejected with exit code 1 and the message
naming the required s3:// start; with that start but a source_format flag
other than the exact literal NEWLINE_DELIMITED_JSON, it is Rejected with
exit code 1 naming the unsupported format; with that start and the
source_format flag left at its table default (resolving to
NEWLINE_DELIMITED_JSON), validation passes. -/
theorem c6_load_checks (inv : Invocation) (hb : inv.bucket ≠ "") :
    (goStartsWith (argGet inv.args 1) "s3://" = false →
      loadBefore inv = .rejected "\x60SOURCE\x60 must start with \x27s3://\x27" 1) ∧
    (goStartsWith (argGet inv.args 1) "s3://" = true →
      inv.sourceFormat ≠ "NEWLINE_DELIMITED_JSON" →
      loadBefore inv = .rejected "Now aq support only NEWLINE_DELIMITED_JSON." 1) ∧
    (goStartsWith (argGet inv.args 1) "s3://" = true →
      inv.sourceFormat = resolveFlag none none SourceFormatFlag.value →
      loadBefore inv = .accepted) := by
  refine ⟨fun hs => ?_, fun hs hf => ?_, fun hs hf => ?_⟩
  · simp [loadBefore, hb, hs]
  · simp [loadBefore, hb, hs, hf]
  · have hf' : inv.sourceFormat = "NEWLINE_DELIMITED_JSON" := hf
    simp [loadBefore, hb, hs, hf']

theorem c6_load_checks_witness :
    ((goStartsWith (argGet ["db.table", "foo"] 1) "s3://" = false →
        loadBefore { bucket := "B", args := ["db.table", "foo"] } =
          .rejected "\x60SOURCE\x60 must start with \x27s3://\x27" 1) ∧
      (goStartsWith (argGet ["db.table", "foo"] 1) "s3://" = true →
        ({ bucket := "B", args := ["db.table", "foo"] } : Invocation).sourceFormat ≠
          "NEWLINE_DELIMITED_JSON" →
        loadBefore { bucket := "B", args := ["db.table", "foo"] } =
          .rejected "Now aq support only NEWLINE_DELIMITED_JSON." 1) ∧
      (goStartsWith (argGet ["db.table", "foo"] 1) "s3://" = true →
        ({ bucket := "B", args := ["db.table", "foo"] } : Invocation).sourceFormat =
          resolveFlag none none SourceFormatFlag.value →
        loadBefore { bucket := "B", args := ["db.table", "foo"] } = .accepted)) ∧
    ((goStartsWith (argGet ["db.table", "s3://bucket/key", "SCHEMA"] 1) "s3://" = true →
        ({ bucket := "B", sourceFormat := "CSV",
           args := ["db.table", "s3://bucket/key", "SCHEMA"] } : Invocation).sourceFormat ≠
          "NEWLINE_DELIMITED_JSON" →
        loadBefore { bucket := "B", sourceFormat := "CSV",
                     args := ["db.table", "s3://bucket/key", "SCHEMA"] } =
          .rejected "Now aq support only NEWLINE_DELIMITED_JSON." 1) ∧
      (goStartsWith (argGet ["db.table", "s3://bucket/key", "SCHEMA"] 1) "s3://" = true →
        ({ bucket := "B",
           args := ["db.table", "s3://bucket/key", "SCHEMA"] } : Invocation).sourceFormat =
          resolveFlag none none SourceFormatFlag.value →
        loadBefore { bucket := "B", args := ["db.table", "s3://bucket/key", "SCHEMA"] } =
          .accepted)) :=
  ⟨c6_load_checks { bucket := "B", args := ["db.table", "foo"] } (by decide),
    (c6_load_checks { bucket := "B", sourceFormat := "CSV",
                      args := ["db.table", "s3://bucket/key", "SCHEMA"] } (by decide)).2.1,
    (c6_load_checks { bucket := "B", args := ["db.table", "s3://bucket/key", "SCHEMA"] }
        (by decide)).2.2⟩

/-- C9: the load hook never checks the argument count or the first
argument's shape. With the bucket flag set and fewer than two positional
arguments (zero included), Get(1) reads as the empty string, which does
not start with s3://, so the run is Rejected with exit code 1 via the
SOURCE message; and any first argument, dotless ones included, passes the
hook whenever the second argument starts with s3:// and the format is the
default. -/
theorem c9_load_no_arg_check (inv : Invocation) (hb : inv.bucket ≠ "") :
    (inv.args.length < 2 →
      loadBefore inv = .rejected "\x60SOURCE\x60 must start with \x27s3://\x27" 1) ∧
    (∀ (first src : String) (more : List String),
      goStartsWith src "s3://" = true →
      loadBefore { bucket := inv.bucket, sourceFormat := "NEWLINE_DELIMITED_JSON",
                   force := inv.force, promptR := inv.promptR,
                   args := first :: src :: more } = .accepted) := by
  constructor
  · intro hlen
    have h1 : argGet inv.args 1 = "" := argGet_eq_empty (by omega)
    have hs : goStartsWith (argGet inv.args 1) "s3://" = false := by
      rw [h1]; decide
    simp [loadBefore, hb, hs]
  · intro first src more hs
    have h1 : argGet (first :: src :: more) 1 = src := rfl
    simp [loadBefore, hb, h1, hs]

theorem c9_load_no_arg_check_witness :
    ((({ bucket := "B" } : Invocation).args.length < 2 →
        loadBefore { bucket := "B" } =
          .rejected "\x60SOURCE\x60 must start with \x27s3://\x27" 1) ∧
      (∀ (first src : String) (more : List String),
        goStartsWith src "s3://" = true →
        loadBefore { bucket := "B", sourceFormat := "NEWLINE_DELIMITED_JSON",
                     force := false, promptR := .answered false,
                     args := first :: src :: more } = .accepted)) :=
  c9_load_no_arg_check { bucket := "B" } (by decide)

/-- C10: the head hook only counts the dot-separated parts and never
checks them non-empty: with the bucket flag set, the first arguments
".", "foo." and ".bar" (each splitting into exactly 2 parts, some empty)
all pass validation, whatever follows them. -/
theorem c10_head_empty_parts (b : String) (hb : b ≠ "") (rest : List String) :
    headBefore { bucket := b, args := "." :: rest } = .accepted ∧
    headBefore { bucket := b, args := "foo." :: rest } = .accepted ∧
    headBefore { bucket := b, args := ".bar" :: rest } = .accepted := by
  refine ⟨?_, ?_, ?_⟩ <;> · simp [headBefore, hb, argGet]; decide

theorem c10_head_empty_parts_witness :
    headBefore { bucket := "B", args := ["."] } = .accepted ∧
    headBefore { bucket := "B", args := ["foo."] } = .accepted ∧
    headBefore { bucket := "B", args := [".bar"] } = .accepted :=
  c10_head_empty_parts "B" (by decide) []

theorem lookupCommand_eq_none {tok : String} (h : tok ∉ subcommandNames) :
    lookupCommand tok Commands = none := by
  simp [subcommandNames, Commands] at h
  obtain ⟨h1, h2, h3, h4, h5, h6⟩ := h
  simp [lookupCommand, Commands, h1, h2, h3, h4, h5, h6]

/-- C7: an invocation with zero arguments, and likewise one whose first
token matches no registered command name, produces the fallback outcome:
by construction of dispatch no Before hook and no action handler runs,
the printed line lists every registered command name (Subcommands: query,
ls, head, mk, rm, load), and the process exit code is 0 whatever an
action handler would have returned. -/
theorem c7_fallback_listing (inv : Invocation) (tok : String)
    (h : tok ∉ subcommandNames) (rest : List String) :
    dispatch [] inv = .fallback fallbackLine ∧
    dispatch (tok :: rest) inv = .fallback fallbackLine ∧
    subcommandNames = ["query", "ls", "head", "mk", "rm", "load"] ∧
    fallbackLine = "Subcommands: query, ls, head, mk, rm, load\n" ∧
    (∀ (handler : ExecResult) (progName : String),
      runExitCode (dispatch [] inv) handler progName = 0 ∧
      runExitCode (dispatch (tok :: rest) inv) handler progName = 0) := by
  have hl : lookupCommand tok Commands = none := lookupCommand_eq_none h
  refine ⟨rfl, ?_, rfl, rfl, ?_⟩
  · simp [dispatch, hl]
  · intro handler progName
    constructor
    · rfl
    · simp [dispatch, hl, runExitCode, msg]

theorem c7_fallback_listing_witness :
    dispatch [] { bucket := "" } = .fallback fallbackLine ∧
    dispatch ["frobnicate"] { bucket := "" } = .fallback fallbackLine ∧
    subcommandNames = ["query", "ls", "head", "mk", "rm", "load"] ∧
    fallbackLine = "Subcommands: query, ls, head, mk, rm, load\n" ∧
    (∀ (handler : ExecResult) (progName : String),
      runExitCode (dispatch [] { bucket := "" }) handler progName = 0 ∧
      runExitCode (dispatch ["frobnicate"] { bucket := "" }) handler progName = 0) :=
  c7_fallback_listing { bucket := "" } "frobnicate" (by decide) []

/-- C8: the msg mapping of the dispatcher sends a Success result (a nil
error) to exit code 0 with nothing printed, and a Failure result to exit
code 1 with the error message printed to the error stream prefixed by the
program name. -/
theorem c8_exit_mapping (progName e : String) :
    msg progName (execErr .success) = (0, none) ∧
    msg progName (execErr (.failure e)) =
      (1, some (progName ++ ": " ++ e ++ "\n")) ∧
    (∃ tail, progName ++ ": " ++ e ++ "\n" = progName ++ tail) :=
  ⟨rfl, rfl, ⟨": " ++ e ++ "\n", by simp [String.append_assoc]⟩⟩
